import Mathlib

/-!
Verification of the asynchronous endpoint abstraction of the gRPC
Windows event engine (`src/core/lib/event_engine/windows/windows_endpoint.h`),
the experiment registry (`src/core/lib/experiments/experiments.yaml`) and the
`no_logging` end-to-end test driver (`test/core/end2end/tests/no_logging.cc`).

The repository snapshot carries only the declaration header of
`WindowsEndpoint`; the member-function bodies live in `windows_endpoint.cc`,
which is not part of the snapshot.  Behavioural definitions for the endpoint
are therefore modelled from the specification text, over the structure that
the header does show (an `AsyncIOState` owning the socket and both permanent
closures, shared references held by the endpoint and by each primed closure).
-/

namespace GrpcWindowsEndpoint

/-- Modelled from the spec: the lifetime state of one `WindowsEndpoint`
together with its `AsyncIOState` (the member-function bodies of
`windows_endpoint.cc` are absent from the snapshot; the header declares the
structure: `std::shared_ptr<AsyncIOState> io_state_` in the endpoint and in
each closure, `AsyncIOState` owning the `WinSocket` and both permanent
closures).  Fields:
* `epAlive`      : the `WindowsEndpoint` object has not been destroyed;
* `epRefValid`   : the closures still treat the back-reference
                   `AsyncIOState::endpoint` as usable (the header declares it
                   `WindowsEndpoint* const`, so it cannot be nulled; the spec
                   requires a guard instead);
* `readPrimed`   : the permanent read closure is primed, holding a shared
                   reference to the state;
* `writePrimed`  : likewise for the write closure;
* `stateAlive`   : the `AsyncIOState` object has not been destroyed;
* `socketOpen`   : the owned `WinSocket` handle has not been closed;
* counters of issued and completed (callback delivered) operations. -/
structure IOSys where
  epAlive : Bool
  epRefValid : Bool
  readPrimed : Bool
  writePrimed : Bool
  stateAlive : Bool
  socketOpen : Bool
  readsIssued : Nat
  readsCompleted : Nat
  writesIssued : Nat
  writesCompleted : Nat
  deriving Repr, DecidableEq

/-- The shared-reference count of the `AsyncIOState`: one share for the
endpoint while it lives, one per primed closure (spec section 3: each closure,
while primed, keeps the state alive via its own shared reference). -/
def refCount (s : IOSys) : Nat :=
  (if s.epAlive then 1 else 0) + (if s.readPrimed then 1 else 0) +
    (if s.writePrimed then 1 else 0)

/-- Modelled from the spec: when the shared-reference count reaches zero the
`AsyncIOState` destructor runs, closing the socket it owns (spec section 4.2:
close the socket handle and free itself). -/
def maybeFree (s : IOSys) : IOSys :=
  if refCount s = 0 then { s with stateAlive := false, socketOpen := false } else s

/-- Modelled from the spec: `WindowsEndpoint::Read` arms the read closure
(which takes a shared reference to the state) and starts an overlapped
receive.  Precondition handled by the step relation: no Read outstanding. -/
def doRead (s : IOSys) : IOSys :=
  { s with readPrimed := true, readsIssued := s.readsIssued + 1 }

/-- Modelled from the spec: `WindowsEndpoint::Write` arms the write closure
and starts an overlapped send. -/
def doWrite (s : IOSys) : IOSys :=
  { s with writePrimed := true, writesIssued := s.writesIssued + 1 }

/-- Modelled from the spec: `HandleReadClosure::Run` delivers the stored
callback exactly once, resets the closure, and releases its shared reference;
if that was the last reference the state is destroyed and the socket closed. -/
def fireReadStep (s : IOSys) : IOSys :=
  maybeFree { s with readPrimed := false, readsCompleted := s.readsCompleted + 1 }

/-- Modelled from the spec: `HandleWriteClosure::Run`, symmetric to the read
closure. -/
def fireWriteStep (s : IOSys) : IOSys :=
  maybeFree { s with writePrimed := false, writesCompleted := s.writesCompleted + 1 }

/-- Modelled from the spec: `~WindowsEndpoint` invalidates the back-reference
guard and releases the endpoint share of the `AsyncIOState`; the state (and
socket) are freed immediately only if no operation is outstanding. -/
def destroyStep (s : IOSys) : IOSys :=
  maybeFree { s with epAlive := false, epRefValid := false }

/-- The state in which an endpoint is created: endpoint alive, no operation
outstanding, state alive, the connected socket open. -/
def init : IOSys :=
  { epAlive := true, epRefValid := true, readPrimed := false, writePrimed := false,
    stateAlive := true, socketOpen := true,
    readsIssued := 0, readsCompleted := 0, writesIssued := 0, writesCompleted := 0 }

/-- The transitions of the endpoint lifetime machine.  Read and Write carry
the caller-enforced precondition that no operation of the same direction is
outstanding; firing a closure requires it to be primed; destruction requires
the endpoint to still be alive. -/
inductive Step : IOSys → IOSys → Prop where
  | read (s : IOSys) (hep : s.epAlive = true) (hp : s.readPrimed = false) :
      Step s (doRead s)
  | write (s : IOSys) (hep : s.epAlive = true) (hp : s.writePrimed = false) :
      Step s (doWrite s)
  | fireRead (s : IOSys) (hp : s.readPrimed = true) : Step s (fireReadStep s)
  | fireWrite (s : IOSys) (hp : s.writePrimed = true) : Step s (fireWriteStep s)
  | destroy (s : IOSys) (hep : s.epAlive = true) : Step s (destroyStep s)

/-- States reachable from the creation state. -/
inductive Reachable : IOSys → Prop where
  | init : Reachable init
  | step {s t : IOSys} : Reachable s → Step s t → Reachable t

/-- The inductive invariant of the lifetime machine. -/
def Inv (s : IOSys) : Prop :=
  (s.stateAlive = true ↔ 0 < refCount s) ∧
  s.socketOpen = s.stateAlive ∧
  s.epRefValid = s.epAlive ∧
  s.readsIssued = s.readsCompleted + (if s.readPrimed then 1 else 0) ∧
  s.writesIssued = s.writesCompleted + (if s.writePrimed then 1 else 0)

lemma inv_init : Inv init := by
  simp [Inv, init, refCount]

lemma inv_step {s t : IOSys} (hInv : Inv s) (hst : Step s t) : Inv t := by
  obtain ⟨h1, h2, h3, h4, h5⟩ := hInv
  cases hst with
  | read hep hp =>
    refine ⟨?_, ?_, ?_, ?_, ?_⟩ <;>
      simp_all [doRead, refCount, hep, hp]
  | write hep hp =>
    refine ⟨?_, ?_, ?_, ?_, ?_⟩ <;>
      simp_all [doWrite, refCount, hep, hp]
  | fireRead hp =>
    cases hea : s.epAlive <;> cases hwp : s.writePrimed <;>
      simp_all [fireReadStep, maybeFree, refCount, Inv]
  | fireWrite hp =>
    cases hea : s.epAlive <;> cases hrp : s.readPrimed <;>
      simp_all [fireWriteStep, maybeFree, refCount, Inv]
  | destroy hep =>
    cases hrp : s.readPrimed <;> cases hwp : s.writePrimed <;>
      simp_all [destroyStep, maybeFree, refCount, Inv]

lemma reachable_inv {s : IOSys} (h : Reachable s) : Inv s := by
  induction h with
  | init => exact inv_init
  | step _ hst ih => exact inv_step ih hst

lemma refCount_zero_flags {s : IOSys} (hz : refCount s = 0) :
    s.epAlive = false ∧ s.readPrimed = false ∧ s.writePrimed = false := by
  unfold refCount at hz
  cases hea : s.epAlive <;> cases hrp : s.readPrimed <;> cases hwp : s.writePrimed <;>
    simp_all

/-- Claim C1: every Read or Write issued on the endpoint (with no other
operation of the same direction outstanding) has its callback invoked exactly
once — in every reachable state the issued count equals the completed count
plus the single possibly-primed operation, and by the time the Async I/O
State has been freed every issued operation's callback has been delivered,
including operations in flight when the endpoint was destroyed. -/
theorem callback_invoked_exactly_once (s : IOSys) (h : Reachable s) :
    s.readsIssued = s.readsCompleted + (if s.readPrimed then 1 else 0) ∧
    s.writesIssued = s.writesCompleted + (if s.writePrimed then 1 else 0) ∧
    (s.stateAlive = false →
      s.readsCompleted = s.readsIssued ∧ s.writesCompleted = s.writesIssued) := by
  obtain ⟨h1, h2, h3, h4, h5⟩ := reachable_inv h
  refine ⟨h4, h5, ?_⟩
  intro hdead
  have hz : refCount s = 0 := by
    rcases Nat.eq_zero_or_pos (refCount s) with hc | hc
    · exact hc
    · rw [h1.mpr hc] at hdead
      exact absurd hdead (by simp)
  obtain ⟨-, hrp, hwp⟩ := refCount_zero_flags hz
  rw [hrp] at h4
  rw [hwp] at h5
  simp_all

/-- The trace that exercises endpoint destruction with a Read in flight:
prime a Read, destroy the endpoint, then let the read closure fire. -/
lemma reach_fire_after_destroy :
    Reachable (fireReadStep (destroyStep (doRead init))) :=
  Reachable.step
    (Reachable.step (Reachable.step Reachable.init (Step.read init (by decide) (by decide)))
      (Step.destroy (doRead init) (by decide)))
    (Step.fireRead (destroyStep (doRead init)) (by decide))

theorem callback_invoked_exactly_once_witness :
    (fireReadStep (destroyStep (doRead init))).readsCompleted =
      (fireReadStep (destroyStep (doRead init))).readsIssued :=
  ((callback_invoked_exactly_once _ reach_fire_after_destroy).2.2 (by decide)).1

/-- Claim C2: the Async I/O State is alive exactly while its shared-reference
count is positive, the count reaches zero only once both the endpoint has
released its share and no closure holds one, any state with the endpoint
alive or an operation primed is still alive, and a freed state is terminal
(so destruction happens exactly once). -/
theorem async_io_state_lifetime (s : IOSys) (h : Reachable s) :
    (s.stateAlive = true ↔ 0 < refCount s) ∧
    (refCount s = 0 →
      s.epAlive = false ∧ s.readPrimed = false ∧ s.writePrimed = false) ∧
    ((s.epAlive = true ∨ s.readPrimed = true ∨ s.writePrimed = true) →
      s.stateAlive = true) ∧
    (s.stateAlive = false → ∀ t, ¬ Step s t) := by
  obtain ⟨h1, h2, h3, h4, h5⟩ := reachable_inv h
  refine ⟨h1, fun hz => refCount_zero_flags hz, ?_, ?_⟩
  · intro halive
    apply h1.mpr
    unfold refCount
    rcases halive with ha | ha | ha <;> simp [ha]
  · intro hdead t hst
    have hz : refCount s = 0 := by
      rcases Nat.eq_zero_or_pos (refCount s) with hc | hc
      · exact hc
      · rw [h1.mpr hc] at hdead
        exact absurd hdead (by simp)
    obtain ⟨hea, hrp, hwp⟩ := refCount_zero_flags hz
    cases hst <;> simp_all

theorem async_io_state_lifetime_witness :
    (fireReadStep (destroyStep (doRead init))).stateAlive = true ↔
      0 < refCount (fireReadStep (destroyStep (doRead init))) :=
  (async_io_state_lifetime _ reach_fire_after_destroy).1

/-- Claim C3: the socket handle is never closed while an operation the OS is
tracking is outstanding; destroying the endpoint with a Read primed leaves
the socket open, the state alive and the operation primed (closure deferred),
and the subsequent closure firing delivers exactly the one outstanding
callback. -/
theorem socket_open_while_outstanding (s : IOSys) (h : Reachable s) :
    ((s.readPrimed = true ∨ s.writePrimed = true) → s.socketOpen = true) ∧
    (s.epAlive = true → s.readPrimed = true →
      (destroyStep s).socketOpen = s.socketOpen ∧
      (destroyStep s).stateAlive = true ∧
      (destroyStep s).readPrimed = true ∧
      (fireReadStep (destroyStep s)).readsCompleted = s.readsCompleted + 1 ∧
      (fireReadStep (destroyStep s)).readsCompleted =
        (fireReadStep (destroyStep s)).readsIssued) := by
  obtain ⟨h1, h2, h3, h4, h5⟩ := reachable_inv h
  constructor
  · intro hprimed
    have halive : s.stateAlive = true := by
      apply h1.mpr
      unfold refCount
      rcases hprimed with ha | ha <;> simp [ha]
    rw [h2, halive]
  · intro hea hrp
    have halive : s.stateAlive = true := by
      apply h1.mpr
      unfold refCount
      simp [hrp]
    rw [hrp] at h4
    cases hwp : s.writePrimed <;>
      simp_all [destroyStep, fireReadStep, maybeFree, refCount, hrp, hwp, halive]

theorem socket_open_while_outstanding_witness :
    (destroyStep (doRead init)).socketOpen = (doRead init).socketOpen ∧
    (destroyStep (doRead init)).stateAlive = true ∧
    (destroyStep (doRead init)).readPrimed = true ∧
    (fireReadStep (destroyStep (doRead init))).readsCompleted =
      (doRead init).readsCompleted + 1 ∧
    (fireReadStep (destroyStep (doRead init))).readsCompleted =
      (fireReadStep (destroyStep (doRead init))).readsIssued :=
  (socket_open_while_outstanding (doRead init)
    (Reachable.step Reachable.init (Step.read init (by decide) (by decide)))).2
    (by decide) (by decide)

/-- Claim C4: the back-reference from the Async I/O State to the endpoint is
used only while the endpoint is alive — in every reachable state the guard
implies liveness, and endpoint destruction invalidates the guard, so a
closure firing afterwards never dereferences the destroyed endpoint (the
header declares the pointer const, so the guard, not nulling, is the
protection). -/
theorem backref_used_only_while_alive (s : IOSys) (h : Reachable s) :
    (s.epRefValid = true → s.epAlive = true) ∧
    (destroyStep s).epRefValid = false := by
  obtain ⟨h1, h2, h3, h4, h5⟩ := reachable_inv h
  constructor
  · intro hv
    rw [← h3]
    exact hv
  · unfold destroyStep maybeFree
    split <;> rfl

theorem backref_used_only_while_alive_witness :
    init.epAlive = true ∧ (destroyStep init).epRefValid = false :=
  ⟨(backref_used_only_while_alive init Reachable.init).1 (by decide),
   (backref_used_only_while_alive init Reachable.init).2⟩

/-- The per-request data of the permanent read closure, after the fields the
header declares: `std::shared_ptr<AsyncIOState> io_state_`,
`absl::AnyInvocable<void(absl::Status)> cb_`, `SliceBuffer* buffer_ = nullptr`.
A shared-state reference, a callback and a buffer pointer are abstracted as
optional identifiers; `none` is the empty/null value. -/
structure HandleReadClosure where
  io_state_ : Option Nat
  cb_ : Option Nat
  buffer_ : Option Nat
  deriving Repr, DecidableEq

/-- The write closure, with the same per-request fields as the read closure
(the header declares the two classes with identical members). -/
structure HandleWriteClosure where
  io_state_ : Option Nat
  cb_ : Option Nat
  buffer_ : Option Nat
  deriving Repr, DecidableEq

/-- Modelled from the spec: `HandleReadClosure::Reset` clears the per-request
data — the buffer pointer, the callback and the shared reference to the
state (the body of `Reset` is not in the snapshot; the header comments it as
"Resets the per-request data"). -/
def HandleReadClosure.Reset (_ : HandleReadClosure) : HandleReadClosure :=
  ⟨none, none, none⟩

/-- Modelled from the spec: `HandleReadClosure::Prime` stores the operation
context and takes a shared reference to the state. -/
def HandleReadClosure.Prime (st buf cb : Nat) : HandleReadClosure :=
  ⟨some st, some cb, some buf⟩

/-- Modelled from the spec: `HandleReadClosure::Run` fires the stored
callback and then resets the closure; returns the callback it delivered
together with the closure's post-state. -/
def HandleReadClosure.Run (c : HandleReadClosure) :
    Option Nat × HandleReadClosure :=
  (c.cb_, c.Reset)

/-- Modelled from the spec: `HandleWriteClosure::Reset`. -/
def HandleWriteClosure.Reset (_ : HandleWriteClosure) : HandleWriteClosure :=
  ⟨none, none, none⟩

/-- Modelled from the spec: `HandleWriteClosure::Prime`. -/
def HandleWriteClosure.Prime (st buf cb : Nat) : HandleWriteClosure :=
  ⟨some st, some cb, some buf⟩

/-- Modelled from the spec: `HandleWriteClosure::Run`. -/
def HandleWriteClosure.Run (c : HandleWriteClosure) :
    Option Nat × HandleWriteClosure :=
  (c.cb_, c.Reset)

/-- The idle read closure: no per-request data. -/
def idleRead : HandleReadClosure := ⟨none, none, none⟩

/-- The idle write closure: no per-request data. -/
def idleWrite : HandleWriteClosure := ⟨none, none, none⟩

/-- Claim C5: after a primed closure fires, its stored callback, buffer
pointer and shared state reference are cleared (it is back in the idle
state before re-priming), and `Reset` is idempotent — resetting an
already-idle closure leaves it idle, retaining nothing.  Both directions. -/
theorem reset_clears_and_is_idempotent (st buf cb : Nat)
    (c : HandleReadClosure) (d : HandleWriteClosure) :
    ((HandleReadClosure.Prime st buf cb).Run.2 = idleRead ∧
     (HandleWriteClosure.Prime st buf cb).Run.2 = idleWrite) ∧
    (c.Reset.Reset = c.Reset ∧ d.Reset.Reset = d.Reset) ∧
    (idleRead.Reset = idleRead ∧ idleWrite.Reset = idleWrite) ∧
    (c.Reset.cb_ = none ∧ c.Reset.buffer_ = none ∧ c.Reset.io_state_ = none) := by
  refine ⟨⟨rfl, rfl⟩, ⟨rfl, rfl⟩, ⟨rfl, rfl⟩, rfl, rfl, rfl⟩

/-- One step of the OS's overlapped send: it may accept a prefix of the
buffer or fail. -/
inductive OsSendResult where
  | sent (n : Nat)
  | failed
  deriving Repr, DecidableEq

/-- Modelled from the spec: the write path hands `remaining` bytes to the
OS send buffer, retrying partial sends internally until the whole buffer is
consumed or an error occurs; `oracle` lists the successive OS results.
Returns the total number of bytes handed over on success, `none` when the
operation fails or is still pending. -/
def sendAll (remaining : Nat) : List OsSendResult → Option Nat
  | [] => if remaining = 0 then some 0 else none
  | r :: rest =>
    if remaining = 0 then some 0
    else
      match r with
      | OsSendResult.sent n =>
          (sendAll (remaining - min n remaining) rest).map (· + min n remaining)
      | OsSendResult.failed => none

/-- Claim C6: whenever a Write's callback is invoked with a success status,
all bytes of the supplied data have been handed to the OS send buffer —
partial sends are retried internally, and a partial result is never
surfaced as success. -/
theorem write_success_means_all_sent (data : Nat) (oracle : List OsSendResult)
    (t : Nat) (h : sendAll data oracle = some t) : t = data := by
  induction oracle generalizing data t with
  | nil =>
    unfold sendAll at h
    split at h
    · simp_all
    · exact absurd h (by simp)
  | cons r rest ih =>
    unfold sendAll at h
    split at h
    · simp_all
    · cases r with
      | sent n =>
        simp only [Option.map_eq_some'] at h
        obtain ⟨u, hu, ht⟩ := h
        have := ih _ _ hu
        omega
      | failed => exact absurd h (by simp)

theorem write_success_means_all_sent_witness :
    sendAll 5 [OsSendResult.sent 3, OsSendResult.sent 2] = some 5 ∧ (5 : Nat) = 5 :=
  ⟨by decide, write_success_means_all_sent 5 [OsSendResult.sent 3, OsSendResult.sent 2] 5 (by decide)⟩

/-- One observable event on the receive path. -/
inductive Arrival where
  | data (n : Nat)
  | rderror
  | closed
  deriving Repr, DecidableEq

/-- How a pending Read ends (or does not). -/
inductive ReadOutcome where
  | done (total : Nat)
  | failed (total : Nat)
  | closedEarly (total : Nat)
  | pending (total : Nat)
  deriving Repr, DecidableEq

/-- Modelled from the spec and the yaml description of
`tcp_frame_size_tuning`: the number of bytes a Read must accumulate before
its completion is indicated — the size hint when the experiment is enabled,
otherwise a single byte suffices. -/
def readTarget (frameSizeTuning : Bool) (hint : Nat) : Nat :=
  if frameSizeTuning then hint else 1

/-- Modelled from the spec: the read path accumulates arrivals and invokes
the callback once `target` bytes have arrived, or eagerly on a socket error
or orderly close. -/
def readLoop (target acc : Nat) : List Arrival → ReadOutcome
  | [] => ReadOutcome.pending acc
  | Arrival.data n :: rest =>
      if target ≤ acc + n then ReadOutcome.done (acc + n)
      else readLoop target (acc + n) rest
  | Arrival.rderror :: _ => ReadOutcome.failed acc
  | Arrival.closed :: _ => ReadOutcome.closedEarly acc

lemma readLoop_done_ge {target acc t : Nat} {evts : List Arrival}
    (h : readLoop target acc evts = ReadOutcome.done t) : target ≤ t := by
  induction evts generalizing acc with
  | nil => exact absurd h (by simp [readLoop])
  | cons e rest ih =>
    cases e with
    | data n =>
      unfold readLoop at h
      split at h
      · simp_all
      · exact ih h
    | rderror => exact absurd h (by simp [readLoop])
    | closed => exact absurd h (by simp [readLoop])

/-- Claim C7: with frame-size estimation disabled a Read completes as soon as
any positive number of bytes arrives, with exactly those bytes; with it
enabled and a size hint of K, a Read that completes successfully has
accumulated at least K bytes — the callback is not invoked below K unless an
error or peer close cuts the read short. -/
theorem frame_size_read_completion (K n t : Nat) (rest evts : List Arrival)
    (hn : 1 ≤ n)
    (hdone : readLoop (readTarget true K) 0 evts = ReadOutcome.done t) :
    readLoop (readTarget false K) 0 (Arrival.data n :: rest) =
      ReadOutcome.done n ∧ K ≤ t := by
  constructor
  · unfold readLoop readTarget
    simp [hn]
  · have := readLoop_done_ge hdone
    simpa [readTarget] using this

theorem frame_size_read_completion_witness :
    readLoop (readTarget false 1024) 0 [Arrival.data 7] = ReadOutcome.done 7 ∧
    (1024 : Nat) ≤ 2048 :=
  frame_size_read_completion 1024 7 2048 [] [Arrival.data 2048]
    (by decide) (by decide)

/-- The result the OS reports for a completed overlapped read: the number of
bytes transferred and the error code (0 meaning no error). -/
structure OverlappedResult where
  bytesTransferred : Nat
  wsaError : Nat
  deriving Repr, DecidableEq

/-- The status delivered to a Read callback. -/
inductive CallbackStatus where
  | ok (bytes : Nat)
  | failure (code : Nat)
  deriving Repr, DecidableEq

/-- Modelled from the spec: mapping from a completed overlapped read to the
status delivered to the Read callback; an orderly peer shutdown is a
completion with zero bytes and no OS error, surfaced as success with zero
bytes. -/
def reportReadResult (r : OverlappedResult) : CallbackStatus :=
  if r.wsaError = 0 then CallbackStatus.ok r.bytesTransferred
  else CallbackStatus.failure r.wsaError

/-- Claim C8: a read completing with zero bytes after the peer's orderly
shutdown is reported to the Read callback as success with a zero byte
count, never as an error status. -/
theorem zero_byte_close_is_success (r : OverlappedResult)
    (horderly : r.wsaError = 0) (hzero : r.bytesTransferred = 0) :
    reportReadResult r = CallbackStatus.ok 0 ∧
    ∀ c, reportReadResult r ≠ CallbackStatus.failure c := by
  constructor
  · simp [reportReadResult, horderly, hzero]
  · intro c
    simp [reportReadResult, horderly]

theorem zero_byte_close_is_success_witness :
    reportReadResult ⟨0, 0⟩ = CallbackStatus.ok 0 :=
  (zero_byte_close_is_success ⟨0, 0⟩ rfl rfl).1

end GrpcWindowsEndpoint

namespace GrpcExperiments

/-- The default policy of an experiment as the yaml format defines it:
`broken` (off, not tested), `false` (off), `debug` (on in debug, off in
release), `release` (on in release, off in debug), `true` (on). -/
inductive ExperimentDefault where
  | broken
  | defFalse
  | defDebug
  | defRelease
  | defTrue
  deriving Repr, DecidableEq

/-- One entry of `src/core/lib/experiments/experiments.yaml`. -/
structure Experiment where
  name : String
  default : ExperimentDefault
  expiry : String
  owner : String
  test_tags : List String
  deriving Repr, DecidableEq

/-- The experiment registry, transcribed entry by entry from
`src/core/lib/experiments/experiments.yaml`. -/
def experiments : List Experiment :=
  [⟨"tcp_frame_size_tuning", ExperimentDefault.defFalse, "2023/03/01",
    "vigneshbabu@google.com", ["endpoint_test", "flow_control_test"]⟩,
   ⟨"tcp_rcv_lowat", ExperimentDefault.defFalse, "2023/03/01",
    "vigneshbabu@google.com", ["endpoint_test", "flow_control_test"]⟩,
   ⟨"peer_state_based_framing", ExperimentDefault.defFalse, "2023/03/01",
    "vigneshbabu@google.com", ["flow_control_test"]⟩,
   ⟨"flow_control_fixes", ExperimentDefault.defTrue, "2023/04/01",
    "ctiller@google.com", ["flow_control_test"]⟩,
   ⟨"memory_pressure_controller", ExperimentDefault.defFalse, "2023/03/01",
    "ctiller@google.com", ["resource_quota_test"]⟩,
   ⟨"unconstrained_max_quota_buffer_size", ExperimentDefault.defFalse, "2023/03/01",
    "ctiller@google.com", ["resource_quota_test"]⟩,
   ⟨"event_engine_client", ExperimentDefault.defFalse, "2023/04/13",
    "hork@google.com", ["event_engine_client_test"]⟩,
   ⟨"monitoring_experiment", ExperimentDefault.defTrue, "2023/06/01",
    "ctiller@google.com", []⟩,
   ⟨"promise_based_client_call", ExperimentDefault.defFalse, "2023/03/01",
    "ctiller@google.com", ["core_end2end_test", "lame_client_test"]⟩,
   ⟨"free_large_allocator", ExperimentDefault.defFalse, "2023/04/01",
    "alishananda@google.com", ["resource_quota_test"]⟩,
   ⟨"promise_based_server_call", ExperimentDefault.defFalse, "2023/06/01",
    "ctiller@google.com", ["core_end2end_test"]⟩,
   ⟨"transport_supplies_client_latency", ExperimentDefault.defFalse, "2023/06/01",
    "ctiller@google.com", ["census_test"]⟩,
   ⟨"event_engine_listener", ExperimentDefault.defFalse, "2023/02/13",
    "vigneshbabu@google.com", ["event_engine_listener_test"]⟩]

/-- The five flow-control tuning flags the spec's section 4.4 describes:
frame-size estimation, low-watermark receive threshold, peer-state-based
framing, frame-size flow-control fixes, and memory-pressure-aware
allocation. -/
def flowControlFlags : List String :=
  ["tcp_frame_size_tuning", "tcp_rcv_lowat", "peer_state_based_framing",
   "flow_control_fixes", "memory_pressure_controller"]

/-- A default policy drawn from off / on-in-debug / on-in-release / on
(everything the yaml format allows except `broken`). -/
def validPolicy : ExperimentDefault → Bool
  | ExperimentDefault.broken => false
  | _ => true

/-- A date of the yaml's `YYYY/MM/DD` shape. -/
def isDate (s : String) : Bool :=
  match s.toList with
  | [y1, y2, y3, y4, '/', m1, m2, '/', d1, d2] =>
      y1.isDigit && y2.isDigit && y3.isDigit && y4.isDigit &&
        m1.isDigit && m2.isDigit && d1.isDigit && d2.isDigit
  | _ => false

/-- Looks a flag up in the registry by name. -/
def findExperiment (n : String) : Option Experiment :=
  experiments.find? (fun e => e.name = n)

/-- A flag name is well formed when the registry defines it with a default
policy drawn from off / on-in-debug / on-in-release / on and an expiry
date. -/
def flagWellFormed (n : String) : Bool :=
  match findExperiment n with
  | some e => validPolicy e.default && isDate e.expiry
  | none => false

/-- Claim C9: every one of the five flow-control tuning flags of the spec's
section 4.4 is a defined entry of the experiment registry, and each such
entry carries a default policy drawn from off / on-in-debug / on-in-release
/ on together with an expiry date. -/
theorem registry_defines_flow_control_flags :
    flowControlFlags.all flagWellFormed = true := by
  decide

end GrpcExperiments

namespace GrpcNoLoggingTest

/-- The log functions that appear in `test/core/end2end/tests/no_logging.cc`. -/
inductive LogFn where
  | gpr_default_log
  | log_dispatcher_func
  | test_no_log
  | test_no_error_log
  deriving Repr, DecidableEq

/-- The process-wide logging state the test mutates: the function installed
with `gpr_set_log_function`, and the atomic dispatcher target `g_log_func`
(statically initialised to `gpr_default_log`). -/
structure LogSys where
  processLogFunction : LogFn
  g_log_func : LogFn
  deriving Repr, DecidableEq

/-- `gpr_set_log_function(f)` replaces the process-wide log function. -/
def gpr_set_log_function (f : LogFn) (s : LogSys) : LogSys :=
  { s with processLogFunction := f }

/-- `gpr_atm_no_barrier_store(&g_log_func, f)` stores a new dispatcher
target. -/
def store_g_log_func (f : LogFn) (s : LogSys) : LogSys :=
  { s with g_log_func := f }

/-- The state at process start: `g_log_func` initialised to
`gpr_default_log` (no_logging.cc line 60) and the default process log
function. -/
def initLogSys : LogSys :=
  { processLogFunction := LogFn.gpr_default_log, g_log_func := LogFn.gpr_default_log }

/-- `test_no_logging_in_one_request`: its only effects on the logging state
are the store of `test_no_log` into `g_log_func` and the restoring store of
`gpr_default_log` (no_logging.cc lines 280 and 282). -/
def test_no_logging_in_one_request (s : LogSys) : LogSys :=
  store_g_log_func LogFn.gpr_default_log (store_g_log_func LogFn.test_no_log s)

/-- `test_no_error_logging_in_entire_process`: stores `test_no_error_log`
into `g_log_func`, then restores `gpr_default_log` (lines 265 and 270). -/
def test_no_error_logging_in_entire_process (s : LogSys) : LogSys :=
  store_g_log_func LogFn.gpr_default_log (store_g_log_func LogFn.test_no_error_log s)

/-- The `no_logging` driver (lines 287-295): installs
`log_dispatcher_func` as the process log function, runs both sub-tests, then
restores `gpr_default_log` as the process log function. -/
def no_logging (s : LogSys) : LogSys :=
  gpr_set_log_function LogFn.gpr_default_log
    (test_no_error_logging_in_entire_process
      (test_no_logging_in_one_request
        (gpr_set_log_function LogFn.log_dispatcher_func s)))

/-- The function that effectively handles a log record: when the installed
process log function is the dispatcher, it forwards to the current
`g_log_func` target (no_logging.cc lines 62-66). -/
def effectiveLog (s : LogSys) : LogFn :=
  match s.processLogFunction with
  | LogFn.log_dispatcher_func => s.g_log_func
  | f => f

/-- Claim C10: whenever the `no_logging` driver runs to completion, both the
process-wide log function and the dispatcher target `g_log_func` are
restored to `gpr_default_log`, so log dispatching after the test equals log
dispatching before it, regardless of which abort-on-log hook was installed
in between. -/
theorem no_logging_restores_default_log (s : LogSys) :
    (no_logging s).processLogFunction = LogFn.gpr_default_log ∧
    (no_logging s).g_log_func = LogFn.gpr_default_log ∧
    effectiveLog (no_logging initLogSys) = effectiveLog initLogSys := by
  refine ⟨rfl, rfl, rfl⟩

end GrpcNoLoggingTest
